import Mathlib

/-!
Verification of the a11y-tracker-client reporting pipeline.

The JavaScript source (index.js of @cdssnc/a11y-tracker-client) is shallowly
embedded below.  JavaScript strings are modelled as lists of characters
(`JSString`); a JavaScript value that may be `undefined` is modelled as an
`Option`; JavaScript truthiness on such optional strings is `truthy`
(`undefined` and the empty string are falsy, every other string is truthy).
The asynchronous transport `post` is modelled as a pure function from its
inputs, together with the eventual XHR completion state, to an observable
trace: the console warnings it emits, the HTTP request it issues (if any),
and how its promise settles.
-/

/-- JavaScript strings, modelled as their sequence of characters. -/
abbrev JSString := List Char

/-- JavaScript truthiness for a string-or-undefined value:
`undefined` and `""` are falsy, all other strings are truthy. -/
def truthy : Option JSString → Bool
  | none => false
  | some s => !s.isEmpty

/-- JavaScript `a || b` on string-or-undefined values:
returns `a` when `a` is truthy, otherwise `b`. -/
def jsOr (a b : Option JSString) : Option JSString :=
  if truthy a then a else b

/-- The helper chomp(str, ch) from index.js: if `str` is falsy return it unchanged;
if its last character is `ch`, drop that one character; otherwise return
it unchanged. -/
def chomp (str : Option JSString) (ch : Char) : Option JSString :=
  match str with
  | none => none
  | some s =>
    if s.isEmpty then some s
    else if s.getLast? = some ch then some s.dropLast
    else some s

/-- The helper plural(num, single, multiple) from index.js: when `multiple` is falsy
it defaults to `single + "s"`; the result is `single` when `num === 1` and
`multiple` otherwise. -/
def plural (num : Nat) (single : JSString) (multiple : Option JSString) : JSString :=
  let m := match multiple with
    | none => single ++ "s".data
    | some s => if s.isEmpty then single ++ "s".data else s
  if num = 1 then single else m

/-- A console-warning message: either a literal string or an arbitrary
data value (JavaScript `console.warn` accepts both). -/
inductive WarnMsg (Data : Type) where
  | text : JSString → WarnMsg Data
  | value : Data → WarnMsg Data
  deriving DecidableEq

/-- The completed state of the XHR object when `onload` fires:
its HTTP status and its `body` field. -/
structure Xhr (Resp : Type) where
  status : Nat
  body : Resp
  deriving DecidableEq

/-- What a `post` promise resolves with: the empty object `{}` on the
dry-run path, or the response body of a completed request. -/
inductive PostResolved (Resp : Type) where
  | emptyObj : PostResolved Resp
  | body : Resp → PostResolved Resp
  deriving DecidableEq

/-- How a promise settles: `resolve` with a value or `reject` with a reason
(here always the raw XHR object). -/
inductive PromiseOutcome (Resp Err : Type) where
  | resolve : PostResolved Resp → PromiseOutcome Resp Err
  | reject : Err → PromiseOutcome Resp Err
  deriving DecidableEq

/-- The HTTP request issued by `post` over XHR. -/
structure HttpRequest (Data : Type) where
  method : JSString
  uri : JSString
  contentType : JSString
  body : Data
  deriving DecidableEq

/-- The observable trace of one `post(uri, data)` call: console warnings,
the network request issued (none on the dry-run path), and how the promise
settles once the request (if any) completes. -/
structure PostTrace (Data Resp : Type) where
  warns : List (WarnMsg Data)
  network : Option (HttpRequest Data)
  outcome : PromiseOutcome Resp (Xhr Resp)
  deriving DecidableEq

/-- The two `console.warn` lines emitted on the dry-run path of `post`. -/
def blankUriWarns (Data : Type) (data : Data) : List (WarnMsg Data) :=
  [ WarnMsg.text "a11y-tracker URI is blank. would have posted:".data,
    WarnMsg.value data ]

/-- Transport function post(uri, data) from index.js.  If `uri` is falsy: warn twice and
resolve with `{}` without touching the network.  Otherwise: issue an
asynchronous `POST uri` with a JSON content type and `data` as body, and
when the request completes (`comp` is the XHR state at `onload`) resolve
with `xhr.body` on a 2xx status and reject with the raw XHR otherwise. -/
def post {Data Resp : Type} (uri : Option JSString) (data : Data)
    (comp : Xhr Resp) : PostTrace Data Resp :=
  match uri with
  | none =>
    { warns := blankUriWarns Data data, network := none,
      outcome := PromiseOutcome.resolve PostResolved.emptyObj }
  | some s =>
    if s.isEmpty then
      { warns := blankUriWarns Data data, network := none,
        outcome := PromiseOutcome.resolve PostResolved.emptyObj }
    else
      { warns := [],
        network := some { method := "POST".data, uri := s,
                          contentType := "application/json".data, body := data },
        outcome :=
          if comp.status / 100 = 2 then PromiseOutcome.resolve (PostResolved.body comp.body)
          else PromiseOutcome.reject comp }

/-- The static fields of the `A11yReporter` class: the process-wide
Global Configuration State.  All four fields start out `undefined`. -/
structure GlobalConfig where
  trackerURI : Option JSString
  revision : Option JSString
  project : Option JSString
  key : Option JSString
  deriving DecidableEq

/-- The options object accepted by the constructor and by `configure`. -/
structure ReporterOpts where
  trackerURI : Option JSString
  revision : Option JSString
  project : Option JSString
  key : Option JSString
  deriving DecidableEq

/-- An options object with every field absent, i.e. the literal `{}`. -/
def ReporterOpts.empty : ReporterOpts :=
  { trackerURI := none, revision := none, project := none, key := none }

/-- An `A11yReporter` instance: the fields set by the constructor. -/
structure A11yReporter where
  page : JSString
  scanName : JSString
  revision : Option JSString
  project : Option JSString
  key : Option JSString
  trackerURI : Option JSString
  deriving DecidableEq

/-- The `A11yReporter` constructor: per-instance options fall back to the
Global Configuration State via `||`, and the resolved tracker URI gets one
trailing `/` chomped. -/
def A11yReporter.new (page scanName : JSString) (opts : ReporterOpts)
    (g : GlobalConfig) : A11yReporter :=
  { page := page, scanName := scanName,
    revision := jsOr opts.revision g.revision,
    project := jsOr opts.project g.project,
    key := jsOr opts.key g.key,
    trackerURI := chomp (jsOr opts.trackerURI g.trackerURI) '/' }

/-- The `scanURI` getter: `undefined` when `trackerURI` is falsy,
otherwise `trackerURI + "/api/v1/scans"`. -/
def A11yReporter.scanURI (r : A11yReporter) : Option JSString :=
  match r.trackerURI with
  | none => none
  | some s => if s.isEmpty then none else some (s ++ "/api/v1/scans".data)

/-- The payload object built by `A11yReporter.report`. -/
structure ReportPayload (ScanResult : Type) where
  revision : Option JSString
  scan_name : JSString
  project_name : Option JSString
  key : Option JSString
  result : ScanResult
  deriving DecidableEq

/-- Method report(axeResult) of A11yReporter: delegate to `post` with the computed
`scanURI` and the five-field payload built from the instance fields. -/
def A11yReporter.report {ScanResult Resp : Type} (r : A11yReporter)
    (axeResult : ScanResult) (comp : Xhr Resp) :
    PostTrace (ReportPayload ScanResult) Resp :=
  post r.scanURI
    { revision := r.revision, scan_name := r.scanName,
      project_name := r.project, key := r.key, result := axeResult }
    comp

/-- Static operation configure(opts) of A11yReporter: each of the four static fields is
overwritten exactly when the corresponding field of `opts` is truthy. -/
def A11yReporter.configure (opts : ReporterOpts) (g : GlobalConfig) : GlobalConfig :=
  { trackerURI := if truthy opts.trackerURI then opts.trackerURI else g.trackerURI,
    revision := if truthy opts.revision then opts.revision else g.revision,
    project := if truthy opts.project then opts.project else g.project,
    key := if truthy opts.key then opts.key else g.key }

/-- One accessibility violation from the scan result: its rule id, impact
severity, and the list of affected nodes (only their count matters here;
node content is opaque). -/
structure Violation (Node : Type) where
  id : JSString
  impact : JSString
  nodes : List Node
  deriving DecidableEq

/-- The part of the axe scan result the Cypress integration inspects:
its list of violations. -/
structure AxeResult (Node : Type) where
  violations : List (Violation Node)
  deriving DecidableEq

/-- The `Cypress.log` entry built for one violation in `reportA11y`:
`name` is `a11y/` followed by the impact, `message` is the violation id
followed by a parenthesized node count unless exactly one node is
affected, and `consoleProps` exposes the full violation. -/
structure CypressLogEntry (Node : Type) where
  name : JSString
  message : JSString
  consoleProps : Violation Node
  deriving DecidableEq

/-- The log entry reportA11y emits for one violation. -/
def violationLogEntry {Node : Type} (violation : Violation Node) :
    CypressLogEntry Node :=
  let numNodes := violation.nodes.length
  let nodeCount : JSString :=
    if numNodes = 1 then [] else " (".data ++ (Nat.repr numNodes).data ++ ")".data
  { name := "a11y/".data ++ violation.impact,
    message := violation.id ++ nodeCount,
    consoleProps := violation }

/-- The list of log entries emitted in the report stage of reportA11y:
one per violation, via `result.violations.forEach`. -/
def reportStageLogs {Node : Type} (result : AxeResult Node) :
    List (CypressLogEntry Node) :=
  result.violations.map violationLogEntry

/-- The assertion message built in the assert stage of reportA11y for a
violation count `n`. -/
def assertMessage (n : Nat) : JSString :=
  "a11y: ".data ++ (Nat.repr n).data ++ " ".data
    ++ plural n "violation".data none ++ " ".data
    ++ plural n "was".data (some "were".data) ++ " detected".data

/-- The outcome of the assert stage: pass, or fail with a message. -/
inductive AssertOutcome where
  | pass : AssertOutcome
  | fail : JSString → AssertOutcome
  deriving DecidableEq

/-- The assert stage of reportA11y: `assert.equal(n, 0, message)` with `n`
the number of violations in the stored result. -/
def assertStage {Node : Type} (result : AxeResult Node) : AssertOutcome :=
  let n := result.violations.length
  if n = 0 then AssertOutcome.pass else AssertOutcome.fail (assertMessage n)

example : chomp (some "ab/".data) '/' = some "ab".data := by decide
example : chomp (some "ab//".data) '/' = some "ab/".data := by decide
example : plural 2 "violation".data none = "violations".data := by decide
example : assertMessage 2 = "a11y: 2 violations were detected".data := by decide
example : assertMessage 1 = "a11y: 1 violation was detected".data := by decide

/-- C1: report(scanResult) calls post with uri equal to the computed scanURI
(undefined when trackerURI is absent, otherwise trackerURI ++ "/api/v1/scans")
and with a payload containing exactly the five fields revision, scan_name,
project_name, key, result taken from the instance and the given result. -/
theorem c1_report_delegates_to_post {ScanResult Resp : Type} (r : A11yReporter)
    (res : ScanResult) (comp : Xhr Resp) :
    r.report res comp =
      post r.scanURI
        { revision := r.revision, scan_name := r.scanName,
          project_name := r.project, key := r.key, result := res } comp
    ∧ (truthy r.trackerURI = false → r.scanURI = none)
    ∧ (∀ s, r.trackerURI = some s → s ≠ [] →
        r.scanURI = some (s ++ "/api/v1/scans".data)) := by
  refine ⟨rfl, ?_, ?_⟩
  · intro h
    cases htr : r.trackerURI with
    | none => simp [A11yReporter.scanURI, htr]
    | some s =>
      rw [htr] at h
      simp [truthy] at h
      simp [A11yReporter.scanURI, htr, h]
  · intro s hs hne
    have hie : s.isEmpty = false := by
      cases s with
      | nil => exact absurd rfl hne
      | cons a t => rfl
    simp [A11yReporter.scanURI, hs, hie]

theorem c1_witness :
    "t".data ≠ ([] : List Char)
    ∧ (A11yReporter.mk "p".data "n".data none none none
        (some "t".data)).scanURI = some ("t".data ++ "/api/v1/scans".data) :=
  ⟨by decide,
   (c1_report_delegates_to_post
      (A11yReporter.mk "p".data "n".data none none none (some "t".data))
      (0 : Nat) ({ status := 200, body := 0 } : Xhr Nat)).2.2
      "t".data rfl (by decide)⟩

/-- C2: for every falsy uri, post(uri, data) resolves with the empty object,
performs no network I/O, and warns about the fact and about data. -/
theorem c2_post_dry_run {Data Resp : Type} (uri : Option JSString) (data : Data)
    (comp : Xhr Resp) (h : truthy uri = false) :
    post uri data comp =
      { warns := [WarnMsg.text "a11y-tracker URI is blank. would have posted:".data,
                  WarnMsg.value data],
        network := none,
        outcome := PromiseOutcome.resolve PostResolved.emptyObj } := by
  cases uri with
  | none => rfl
  | some s =>
    simp [truthy] at h
    simp [post, blankUriWarns, h]

theorem c2_witness :
    truthy (none : Option JSString) = false
    ∧ post (none : Option JSString) (7 : Nat) ({ status := 0, body := 0 } : Xhr Nat) =
        { warns := [WarnMsg.text "a11y-tracker URI is blank. would have posted:".data,
                    WarnMsg.value 7],
          network := none,
          outcome := PromiseOutcome.resolve PostResolved.emptyObj } :=
  ⟨rfl, c2_post_dry_run none 7 { status := 0, body := 0 } rfl⟩

/-- C3: for every truthy uri, the promise of post(uri, data) resolves with the
response body iff the completion status is in the interval from 200 up to but
excluding 300, rejects with the raw XHR object otherwise, and the 2xx test of
the code (floor of status over 100 equals 2) is equivalent to that interval;
moreover the POST request is actually issued to uri with a JSON content type. -/
theorem c3_post_status_2xx {Data Resp : Type} (uri : JSString) (data : Data)
    (comp : Xhr Resp) (h : uri ≠ []) :
    ((post (some uri) data comp).outcome
        = PromiseOutcome.resolve (PostResolved.body comp.body)
      ↔ 200 ≤ comp.status ∧ comp.status < 300)
    ∧ (¬ (200 ≤ comp.status ∧ comp.status < 300) →
        (post (some uri) data comp).outcome = PromiseOutcome.reject comp)
    ∧ (comp.status / 100 = 2 ↔ 200 ≤ comp.status ∧ comp.status < 300)
    ∧ (post (some uri) data comp).network =
        some { method := "POST".data, uri := uri,
               contentType := "application/json".data, body := data } := by
  have hdiv : comp.status / 100 = 2 ↔ 200 ≤ comp.status ∧ comp.status < 300 := by
    omega
  have hie : uri.isEmpty = false := by
    cases uri with
    | nil => exact absurd rfl h
    | cons a t => rfl
  refine ⟨?_, ?_, hdiv, ?_⟩
  · rw [← hdiv]
    by_cases hs : comp.status / 100 = 2 <;> simp [post, hie, hs]
  · rw [← hdiv]
    intro hns
    simp [post, hie, hns]
  · simp [post, hie]

theorem c3_witness :
    "u".data ≠ ([] : List Char)
    ∧ ((post (some "u".data) (0 : Nat) ({ status := 204, body := 5 } : Xhr Nat)).outcome
        = PromiseOutcome.resolve (PostResolved.body 5) ↔ 200 ≤ 204 ∧ 204 < 300) :=
  ⟨by decide,
   (c3_post_status_2xx "u".data (0 : Nat) { status := 204, body := 5 } (by decide)).1⟩

/-- C9: plural(num, single, multiple) returns single when num is 1 and
otherwise returns multiple, which defaults to single ++ "s" when no truthy
irregular form is supplied; including the five concrete examples. -/
theorem c9_plural_rule (num : Nat) (single : JSString) (multiple : Option JSString) :
    plural 1 single multiple = single
    ∧ (num ≠ 1 → truthy multiple = false → plural num single multiple = single ++ "s".data)
    ∧ (num ≠ 1 → ∀ m, multiple = some m → m ≠ [] → plural num single multiple = m)
    ∧ plural 1 "violation".data none = "violation".data
    ∧ plural 0 "violation".data none = "violations".data
    ∧ plural 5 "violation".data none = "violations".data
    ∧ plural 1 "was".data (some "were".data) = "was".data
    ∧ plural 2 "was".data (some "were".data) = "were".data := by
  refine ⟨?_, ?_, ?_, by decide, by decide, by decide, by decide, by decide⟩
  · simp [plural]
  · intro hnum hm
    cases multiple with
    | none => simp [plural, hnum]
    | some m =>
      simp [truthy] at hm
      simp [plural, hnum, hm]
  · intro hnum m hm hne
    subst hm
    have hie : m.isEmpty = false := by
      cases m with
      | nil => exact absurd rfl hne
      | cons a t => rfl
    simp [plural, hnum, hie]

theorem c9_witness :
    (2 : Nat) ≠ 1 ∧ truthy (none : Option JSString) = false
    ∧ plural 2 "day".data none = "day".data ++ "s".data :=
  ⟨by decide, rfl, (c9_plural_rule 2 "day".data none).2.1 (by decide) rfl⟩

/-- C10: two Reporter instances differing only in the page passed to the
constructor produce, for every scan result and completion state, identical
report traces (same warnings, same request with its uri, same outcome):
the stored page field never affects anything report sends or logs. -/
theorem c10_page_noninterference {ScanResult Resp : Type}
    (page1 page2 scanName : JSString) (opts : ReporterOpts) (g : GlobalConfig)
    (res : ScanResult) (comp : Xhr Resp) :
    (A11yReporter.new page1 scanName opts g).report res comp
      = (A11yReporter.new page2 scanName opts g).report res comp := rfl

/-- C4: configure(opts) overwrites a Global Configuration State field exactly
when the corresponding field of opts is truthy; configure({}) changes nothing,
configure({key: abc}) updates only key, and no configure call ever turns a
truthy field back into a falsy one. -/
theorem c4_configure_overwrites_iff_truthy (opts : ReporterOpts) (g : GlobalConfig) :
    (truthy opts.trackerURI = true →
      (A11yReporter.configure opts g).trackerURI = opts.trackerURI)
    ∧ (truthy opts.trackerURI = false →
      (A11yReporter.configure opts g).trackerURI = g.trackerURI)
    ∧ (truthy opts.revision = true →
      (A11yReporter.configure opts g).revision = opts.revision)
    ∧ (truthy opts.revision = false →
      (A11yReporter.configure opts g).revision = g.revision)
    ∧ (truthy opts.project = true →
      (A11yReporter.configure opts g).project = opts.project)
    ∧ (truthy opts.project = false →
      (A11yReporter.configure opts g).project = g.project)
    ∧ (truthy opts.key = true → (A11yReporter.configure opts g).key = opts.key)
    ∧ (truthy opts.key = false → (A11yReporter.configure opts g).key = g.key)
    ∧ A11yReporter.configure ReporterOpts.empty g = g
    ∧ A11yReporter.configure
        { trackerURI := none, revision := none, project := none,
          key := some "abc".data } g =
        { trackerURI := g.trackerURI, revision := g.revision,
          project := g.project, key := some "abc".data }
    ∧ (truthy g.trackerURI = true →
        truthy (A11yReporter.configure opts g).trackerURI = true)
    ∧ (truthy g.revision = true →
        truthy (A11yReporter.configure opts g).revision = true)
    ∧ (truthy g.project = true →
        truthy (A11yReporter.configure opts g).project = true)
    ∧ (truthy g.key = true → truthy (A11yReporter.configure opts g).key = true) := by
  have habc : truthy (some "abc".data) = true := by decide
  refine ⟨?_, ?_, ?_, ?_, ?_, ?_, ?_, ?_, ?_, ?_, ?_, ?_, ?_, ?_⟩
  · intro h; simp [A11yReporter.configure, h]
  · intro h; simp [A11yReporter.configure, h]
  · intro h; simp [A11yReporter.configure, h]
  · intro h; simp [A11yReporter.configure, h]
  · intro h; simp [A11yReporter.configure, h]
  · intro h; simp [A11yReporter.configure, h]
  · intro h; simp [A11yReporter.configure, h]
  · intro h; simp [A11yReporter.configure, h]
  · simp [A11yReporter.configure, ReporterOpts.empty, truthy]
  · simp [A11yReporter.configure, truthy, habc]
  · intro h
    by_cases ho : truthy opts.trackerURI = true <;>
      simp [A11yReporter.configure, ho, h]
  · intro h
    by_cases ho : truthy opts.revision = true <;>
      simp [A11yReporter.configure, ho, h]
  · intro h
    by_cases ho : truthy opts.project = true <;>
      simp [A11yReporter.configure, ho, h]
  · intro h
    by_cases ho : truthy opts.key = true <;>
      simp [A11yReporter.configure, ho, h]

/-- Helper: report performs no network I/O exactly when the effective
trackerURI of the instance is falsy. -/
theorem report_network_none_iff {ScanResult Resp : Type} (r : A11yReporter)
    (res : ScanResult) (comp : Xhr Resp) :
    (r.report res comp).network = none ↔ truthy r.trackerURI = false := by
  cases htr : r.trackerURI with
  | none => simp [A11yReporter.report, A11yReporter.scanURI, htr, post, truthy]
  | some s =>
    by_cases hse : s.isEmpty = true
    · simp [A11yReporter.report, A11yReporter.scanURI, htr, post, truthy, hse]
    · have hne : (s ++ "/api/v1/scans".data).isEmpty = false := by
        cases s with
        | nil => exact absurd rfl hse
        | cons a t => rfl
      simp [A11yReporter.report, A11yReporter.scanURI, htr, post, truthy,
        Bool.not_eq_true] at hse ⊢
      simp [hse, hne]

/-- Helper: a nonempty list whose last element is c and whose dropLast is
nonempty with last element c ends in the two-element run c, c. -/
theorem suffix_pair_of_getLast (l : JSString) (c : Char) (hlast : l.getLast? = some c)
    (hd2 : l.dropLast.getLast? = some c) : [c, c] <:+ l := by
  have h1 : l.dropLast ++ [c] = l :=
    List.dropLast_append_getLast? c (Option.mem_def.mpr hlast)
  have h2 : l.dropLast.dropLast ++ [c] = l.dropLast :=
    List.dropLast_append_getLast? c (Option.mem_def.mpr hd2)
  refine ⟨l.dropLast.dropLast, ?_⟩
  calc l.dropLast.dropLast ++ [c, c]
      = (l.dropLast.dropLast ++ [c]) ++ [c] := by simp
    _ = l.dropLast ++ [c] := by rw [h2]
    _ = l := h1

/-- C5 counterexample: a Reporter constructed with trackerURI "t//" has
effective trackerURI "t/", which is truthy (not absent) yet ends in a
trailing slash, contradicting the claimed invariant. -/
theorem c5_counterexample :
    truthy (A11yReporter.new "p".data "n".data
      { trackerURI := some "t//".data, revision := none, project := none, key := none }
      { trackerURI := none, revision := none, project := none, key := none }).trackerURI
      = true
    ∧ (A11yReporter.new "p".data "n".data
        { trackerURI := some "t//".data, revision := none, project := none, key := none }
        { trackerURI := none, revision := none, project := none, key := none }).trackerURI
      = some "t/".data
    ∧ ("t/".data).getLast? = some '/' := by decide

/-- C5 amended: for every constructed Reporter, absence (falsiness) of the
effective trackerURI is exactly the condition under which report skips
network I/O; and provided the resolved source URI does not end in two
consecutive slashes, the effective trackerURI is falsy or is a nonempty
string with no trailing slash. -/
theorem c5_trackeruri_invariant (page scanName : JSString) (opts : ReporterOpts)
    (g : GlobalConfig)
    (hsrc : ¬ ['/', '/'] <:+ (jsOr opts.trackerURI g.trackerURI).getD []) :
    (∀ (ScanResult Resp : Type) (res : ScanResult) (comp : Xhr Resp),
      ((A11yReporter.new page scanName opts g).report res comp).network = none
        ↔ truthy (A11yReporter.new page scanName opts g).trackerURI = false)
    ∧ (truthy (A11yReporter.new page scanName opts g).trackerURI = false
      ∨ ∃ m, (A11yReporter.new page scanName opts g).trackerURI = some m
          ∧ m ≠ [] ∧ m.getLast? ≠ some '/') := by
  constructor
  · intro ScanResult Resp res comp
    exact report_network_none_iff (A11yReporter.new page scanName opts g) res comp
  · have htr : (A11yReporter.new page scanName opts g).trackerURI
        = chomp (jsOr opts.trackerURI g.trackerURI) '/' := rfl
    cases hu : jsOr opts.trackerURI g.trackerURI with
    | none => left; rw [htr, hu]; rfl
    | some l =>
      rw [hu] at hsrc htr
      simp only [Option.getD_some] at hsrc
      cases hl : l with
      | nil => left; rw [htr, hl]; rfl
      | cons a t =>
        rw [hl] at hsrc htr
        have hlne : (a :: t) ≠ ([] : JSString) := by simp
        by_cases hlast : (a :: t).getLast? = some '/'
        · have hchomp : chomp (some (a :: t)) '/' = some (a :: t).dropLast := by
            simp [chomp, hlast]
          rw [hchomp] at htr
          by_cases hdl : (a :: t).dropLast = []
          · left; rw [htr, hdl]; rfl
          · right
            refine ⟨(a :: t).dropLast, htr, hdl, ?_⟩
            intro hd2
            exact hsrc (suffix_pair_of_getLast (a :: t) '/' hlast hd2)
        · have hchomp : chomp (some (a :: t)) '/' = some (a :: t) := by
            simp [chomp, hlast]
          rw [hchomp] at htr
          exact Or.inr ⟨a :: t, htr, hlne, hlast⟩

theorem c5_witness :
    (¬ ['/', '/'] <:+ (jsOr (some "t/".data) (none : Option JSString)).getD [])
    ∧ (truthy (A11yReporter.new "p".data "n".data
        { trackerURI := some "t/".data, revision := none, project := none, key := none }
        { trackerURI := none, revision := none, project := none, key := none }).trackerURI
        = false
      ∨ ∃ m, (A11yReporter.new "p".data "n".data
          { trackerURI := some "t/".data, revision := none, project := none, key := none }
          { trackerURI := none, revision := none, project := none, key := none }).trackerURI
            = some m ∧ m ≠ [] ∧ m.getLast? ≠ some '/') :=
  ⟨by decide,
   (c5_trackeruri_invariant "p".data "n".data
      { trackerURI := some "t/".data, revision := none, project := none, key := none }
      { trackerURI := none, revision := none, project := none, key := none }
      (by decide)).2⟩

/-- C6: chomp removes exactly one trailing character when the last character
matches (and leaves falsy or non-matching inputs unchanged), so a Reporter
built on a configured nonempty trackerURI ending in one or more slashes has
as effective trackerURI that string with exactly one trailing character
removed. -/
theorem c6_chomp_exactly_one (page scanName : JSString) (g0 : GlobalConfig)
    (l : JSString) (ch : Char) :
    chomp none ch = none
    ∧ chomp (some []) ch = some []
    ∧ (l ≠ [] → l.getLast? = some ch → chomp (some l) ch = some l.dropLast)
    ∧ (l.getLast? ≠ some ch → chomp (some l) ch = some l)
    ∧ (l ≠ [] → l.getLast? = some '/' →
        (A11yReporter.new page scanName ReporterOpts.empty
          (A11yReporter.configure
            { trackerURI := some l, revision := none, project := none, key := none }
            g0)).trackerURI = some l.dropLast) := by
  refine ⟨rfl, rfl, ?_, ?_, ?_⟩
  · intro hne hlast
    have hie : l.isEmpty = false := by
      cases l with
      | nil => exact absurd rfl hne
      | cons a t => rfl
    simp [chomp, hie, hlast]
  · intro hlast
    cases l with
    | nil => rfl
    | cons a t => simp [chomp, hlast]
  · intro hne hlast
    have hie : l.isEmpty = false := by
      cases l with
      | nil => exact absurd rfl hne
      | cons a t => rfl
    have htruthy : truthy (some l) = true := by simp [truthy, hie]
    have hconf : (A11yReporter.configure
        { trackerURI := some l, revision := none, project := none, key := none }
        g0).trackerURI = some l := by
      simp [A11yReporter.configure, htruthy]
    have hres : jsOr (ReporterOpts.empty.trackerURI)
        (A11yReporter.configure
          { trackerURI := some l, revision := none, project := none, key := none }
          g0).trackerURI = some l := by
      rw [hconf]; rfl
    show chomp (jsOr _ _) '/' = some l.dropLast
    rw [hres]
    simp [chomp, hie, hlast]

/-- C8: in the report stage, each violation yields exactly one log entry,
whose name is "a11y/" followed by the impact, whose metadata is the full
violation, and whose message is the violation id followed by a parenthesized
node count exactly when more than one node is affected (bare id for exactly
one node) — for scan results whose violations each affect at least one node. -/
theorem c8_violation_logging {Node : Type} (result : AxeResult Node)
    (hnodes : result.violations.all (fun v => !v.nodes.isEmpty) = true) :
    (reportStageLogs result).length = result.violations.length
    ∧ (∀ (i : Nat) (v : Violation Node), result.violations[i]? = some v →
        ∃ e : CypressLogEntry Node, (reportStageLogs result)[i]? = some e
          ∧ e.name = "a11y/".data ++ v.impact
          ∧ e.consoleProps = v
          ∧ (v.nodes.length = 1 → e.message = v.id)
          ∧ (e.message ≠ v.id → 1 < v.nodes.length)
          ∧ (1 < v.nodes.length →
              e.message = v.id ++ " (".data
                ++ (Nat.repr v.nodes.length).data ++ ")".data)) := by
  constructor
  · simp [reportStageLogs]
  · intro i v hv
    refine ⟨violationLogEntry v, ?_, rfl, rfl, ?_, ?_, ?_⟩
    · simp [reportStageLogs, hv]
    · intro h1
      simp [violationLogEntry, h1]
    · intro hmsg
      have hmem : v ∈ result.violations := List.getElem?_mem hv
      have hvnodes : v.nodes ≠ [] := by
        have := List.all_eq_true.mp hnodes v hmem
        simpa using this
      have hlen0 : v.nodes.length ≠ 0 := by
        simpa [List.length_eq_zero] using hvnodes
      by_cases h1 : v.nodes.length = 1
      · exact absurd (by simp [violationLogEntry, h1]) hmsg
      · omega
    · intro h2
      have h1 : v.nodes.length ≠ 1 := by omega
      simp [violationLogEntry, h1, List.append_assoc]

theorem c8_witness :
    (AxeResult.mk
      [Violation.mk "color-contrast".data "serious".data [(), (), ()],
       Violation.mk "image-alt".data "critical".data [()]]).violations.all
        (fun v => !v.nodes.isEmpty) = true
    ∧ (reportStageLogs (AxeResult.mk
        [Violation.mk "color-contrast".data "serious".data [(), (), ()],
         Violation.mk "image-alt".data "critical".data [()]])).length
      = (AxeResult.mk
          [Violation.mk "color-contrast".data "serious".data [(), (), ()],
           Violation.mk "image-alt".data "critical".data [()]]).violations.length
    ∧ (reportStageLogs (AxeResult.mk
        [Violation.mk "color-contrast".data "serious".data [(), (), ()],
         Violation.mk "image-alt".data "critical".data [()]])).map
          (fun e => (e.name, e.message))
      = [("a11y/serious".data, "color-contrast (3)".data),
         ("a11y/critical".data, "image-alt".data)] :=
  ⟨by decide,
   (c8_violation_logging (AxeResult.mk
      [Violation.mk "color-contrast".data "serious".data [(), (), ()],
       Violation.mk "image-alt".data "critical".data [()]]) (by decide)).1,
   by decide⟩

/-- C7 counterexample: for a scan result with 2 violations the assert stage
fails with the message "a11y: 2 violations were detected", which is not the
claimed exact message "2 violations were detected". -/
theorem c7_counterexample :
    assertStage (AxeResult.mk
      [Violation.mk "v1".data "serious".data [()],
       Violation.mk "v2".data "critical".data [()]])
      = AssertOutcome.fail ("a11y: 2 violations were detected".data)
    ∧ "a11y: 2 violations were detected".data ≠ "2 violations were detected".data := by
  decide

/-- C7 amended: the assert stage passes exactly when the violation count n is
zero, and on failure produces exactly the message
"a11y: <n> <violation|violations> <was|were> detected" with correct
pluralization; in particular for 2 violations the message is
"a11y: 2 violations were detected" and for 1 it is
"a11y: 1 violation was detected". -/
theorem c7_assert_stage {Node : Type} (result : AxeResult Node) (n : Nat) :
    (assertStage result = AssertOutcome.pass ↔ result.violations.length = 0)
    ∧ (result.violations.length = n → n ≠ 0 →
        assertStage result = AssertOutcome.fail (assertMessage n))
    ∧ (n ≠ 1 → assertMessage n
        = "a11y: ".data ++ (Nat.repr n).data ++ " violations were detected".data)
    ∧ assertMessage 1 = "a11y: 1 violation was detected".data
    ∧ assertMessage 2 = "a11y: 2 violations were detected".data := by
  refine ⟨?_, ?_, ?_, by decide, by decide⟩
  · by_cases h0 : result.violations.length = 0 <;> simp [assertStage, h0]
  · intro hlen hne
    simp [assertStage, hlen, hne]
  · intro hne
    have hv : plural n "violation".data none = "violations".data := by
      simp [plural, hne]
    have hw : plural n "was".data (some "were".data) = "were".data := by
      simp [plural, hne]
    rw [assertMessage, hv, hw]
    simp only [List.append_assoc]
    refine congrArg (fun t => "a11y: ".data ++ t) ?_
    refine congrArg (fun t => (Nat.repr n).data ++ t) ?_
    decide

theorem c7_witness :
    ([Violation.mk "v1".data "serious".data [()],
      Violation.mk "v2".data "critical".data [()]] : List (Violation Unit)).length = 2
    ∧ (2 : Nat) ≠ 0
    ∧ assertStage (AxeResult.mk
        [Violation.mk "v1".data "serious".data [()],
         Violation.mk "v2".data "critical".data [()]])
      = AssertOutcome.fail (assertMessage 2) :=
  ⟨by decide, by decide,
   (c7_assert_stage (AxeResult.mk
      [Violation.mk "v1".data "serious".data [()],
       Violation.mk "v2".data "critical".data [()]]) 2).2.1 (by decide) (by decide)⟩

theorem c6_witness :
    "a//".data ≠ ([] : List Char)
    ∧ ("a//".data).getLast? = some '/'
    ∧ (A11yReporter.new "p".data "n".data ReporterOpts.empty
        (A11yReporter.configure
          { trackerURI := some "a//".data, revision := none, project := none,
            key := none }
          { trackerURI := none, revision := none, project := none, key := none })).trackerURI
      = some ("a//".data.dropLast) :=
  ⟨by decide, by decide,
   (c6_chomp_exactly_one "p".data "n".data
      { trackerURI := none, revision := none, project := none, key := none }
      "a//".data '/').2.2.2.2 (by decide) (by decide)⟩

theorem c4_witness :
    truthy (some "u".data) = true
    ∧ (A11yReporter.configure
        { trackerURI := some "u".data, revision := none, project := none, key := none }
        { trackerURI := none, revision := none, project := none, key := none }).trackerURI
      = some "u".data :=
  ⟨by decide,
   (c4_configure_overwrites_iff_truthy
      { trackerURI := some "u".data, revision := none, project := none, key := none }
      { trackerURI := none, revision := none, project := none, key := none }).1
      (by decide)⟩
